import Mathlib

/-!
Verification of the Zen-Pomodoro timer core (`src/hooks/usePomodoro.ts`,
`src/components/SettingsView.tsx`) against its natural-language specification.

The embedding is shallow: JavaScript numbers that the program only ever holds
at integer values (millisecond timestamps from `Date.now()`, second counts
from `Math.ceil`, configured durations) are modelled as `Int`; fallible
storage operations are modelled with `Except`; the web-worker ticker and the
React hook are modelled as explicit step functions over small state records,
with observable side effects (persistence writes, worker `START`/`STOP`
messages, haptics, sounds, notifications, timeout scheduling) collected in an
effect list.
-/

namespace ZenPomodoro

/-- Timer modes, from `src/types` as used in `App.tsx`:
`TimerMode.FOCUS`, `TimerMode.SHORT_BREAK`, `TimerMode.LONG_BREAK`,
`TimerMode.DEMO`. -/
inductive TimerMode where
  | focus
  | shortBreak
  | longBreak
  | demo
  deriving DecidableEq

/-- Per-mode configuration (`TimerConfig`): duration in seconds and a display
label, as built in `App.tsx` (`currentConfig`). The `mode` field of the
TypeScript record is redundant with the key and is omitted. -/
structure TimerConfig where
  duration : Int
  label : String
  deriving DecidableEq

/-- Configuration record `Record<TimerMode, TimerConfig>`. In `App.tsx` the
record always carries an entry for every mode, so it is a total function. -/
abbrev Config := TimerMode → TimerConfig

/-- Integer model of `Math.ceil((ms) / 1000)` for an integer count of
milliseconds: the ceiling of `ms / 1000` (Lean's `/` on `Int` is Euclidean
division, which rounds toward minus infinity for the positive divisor
`1000`). -/
def ceilDiv1000 (ms : Int) : Int := (ms + 999) / 1000

/-- JavaScript truthiness of a nullable number: `null`/`undefined` and `0`
are falsy, every other integer is truthy. -/
def jsTruthyOptInt : Option Int → Bool
  | none => false
  | some v => v != 0

/-! ### Background ticker (the web worker, `WORKER_CODE`) -/

/-- Worker-side state: `self.timerInterval` is modelled by the deadline of
the currently active polling interval, or `none` when the interval is
cleared. -/
structure WorkerState where
  timerInterval : Option Int
  deriving DecidableEq

/-- Messages posted into the worker (`{type: 'START', payload: {endTime}}`
and `{type: 'STOP'}`). -/
inductive WorkerMsgIn where
  | start (endTime : Int)
  | stop
  deriving DecidableEq

/-- Messages posted out of the worker (`{type: 'TICK', timeLeft}` and
`{type: 'COMPLETE'}`). -/
inductive WorkerOut where
  | tick (timeLeft : Int)
  | complete
  deriving DecidableEq

/-- Events the worker reacts to: an incoming message, or the firing of the
1000 ms `setInterval` callback at wall-clock time `now` (`Date.now()`). A
`poll` event with the interval cleared corresponds to no callback existing
and does nothing. -/
inductive WorkerEvent where
  | msg (m : WorkerMsgIn)
  | poll (now : Int)
  deriving DecidableEq

/-- Whether a worker event is a `START` message. -/
def WorkerEvent.isStart : WorkerEvent → Bool
  | .msg (.start _) => true
  | _ => false

/-- One step of the worker (`self.onmessage` plus the interval callback body
of `WORKER_CODE`): `START` clears any previous interval and installs a new
one for the given deadline; `STOP` clears the interval; a poll computes
`remaining = Math.ceil((endTime - now) / 1000)` and either emits one
`COMPLETE` and clears the interval (`remaining <= 0`) or emits
`TICK remaining`. -/
def workerStep (s : WorkerState) : WorkerEvent → WorkerState × List WorkerOut
  | .msg (.start endTime) => (⟨some endTime⟩, [])
  | .msg .stop => (⟨none⟩, [])
  | .poll now =>
    match s.timerInterval with
    | none => (s, [])
    | some endTime =>
      let remaining := ceilDiv1000 (endTime - now)
      if remaining ≤ 0 then (⟨none⟩, [.complete])
      else (s, [.tick remaining])

/-- Run the worker over a sequence of events, concatenating emitted
messages. -/
def workerRun (s : WorkerState) : List WorkerEvent → WorkerState × List WorkerOut
  | [] => (s, [])
  | e :: es =>
    let p := workerStep s e
    let q := workerRun p.1 es
    (q.1, p.2 ++ q.2)

/-! ### Stored session (`StoredSession`, key `zen-session-v1`) -/

/-- The persisted session record. Fields that the load path guards against
being absent or of the wrong type are `Option`s: `mode` is `none` when the
stored mode is missing (or not a key of the config record), `endTime` is the
nullable deadline, `timeLeft` is `none` when the stored value is not a
number (`typeof session.timeLeft === 'number'` fails). The write path always
fills every field. The `timestamp` field written by `persistSession` is
never read back and is tracked separately where it matters. -/
structure StoredSession where
  mode : Option TimerMode
  isActive : Bool
  endTime : Option Int
  timeLeft : Option Int
  deriving DecidableEq

/-- Condition of the browser storage slot under the session key, as seen by
the load path: nothing stored, a stored value that `JSON.parse` rejects (or
a storage read that throws), or a parsed record. -/
inductive RawStored where
  | absent
  | malformed
  | valid (s : StoredSession)
  deriving DecidableEq

/-- The hook's `getStoredSession`: returns the parsed record, or `null` when
nothing is stored; the `try`/`catch` turns a parse or storage failure into
`null` as well. -/
def getStoredSession : RawStored → Option StoredSession
  | .absent => none
  | .malformed => none
  | .valid s => some s

/-! ### Engine state and the lazy `useState` initializers -/

/-- Live state owned by the hook: `mode`, `isActive`, `timeLeft` (seconds),
`endTimeRef.current`, and whether the 3 s auto-reset timeout
(`autoResetTimeoutRef`) is pending. -/
structure EngineState where
  mode : TimerMode
  isActive : Bool
  timeLeft : Int
  endTime : Option Int
  autoResetPending : Bool
  deriving DecidableEq

/-- Initializer of the `mode` state:
`(session?.mode && config[session.mode]) ? session.mode : TimerMode.FOCUS`.
The config record is total, so `config[m]` is a truthy object for every mode
of the enumeration. -/
def initMode (session : Option StoredSession) : TimerMode :=
  match session with
  | some s =>
    match s.mode with
    | some m => m
    | none => TimerMode.focus
  | none => TimerMode.focus

/-- Initializer of the `isActive` state: `false` unless a session was stored
with `isActive` set and a truthy `endTime` whose recomputed remaining time is
positive. -/
def initIsActive (session : Option StoredSession) (now : Int) : Bool :=
  match session with
  | none => false
  | some s =>
    match s.endTime with
    | some e => s.isActive && (e != 0) && decide (0 < ceilDiv1000 (e - now))
    | none => false

/-- Initializer of the `timeLeft` state, following the source line by line:
no session ⇒ the current mode's configured duration; a running session with
truthy `endTime` ⇒ `remaining > 0 ? remaining : 0`; otherwise the frozen
stored `timeLeft` when it is a number, else the stored mode's duration
(falling back to the focus duration, with `|| 1500` applied to a zero focus
duration). `m` is the already-initialized `mode` state captured by the
closure. -/
def initTimeLeft (cfg : Config) (m : TimerMode) (session : Option StoredSession)
    (now : Int) : Int :=
  match session with
  | none => (cfg m).duration
  | some s =>
    let defaultDuration :=
      if (cfg TimerMode.focus).duration = 0 then 1500 else (cfg TimerMode.focus).duration
    let modeDuration :=
      match s.mode with
      | some sm => (cfg sm).duration
      | none => defaultDuration
    let frozen :=
      match s.timeLeft with
      | some t => t
      | none => modeDuration
    match s.endTime with
    | some e =>
      if s.isActive && (e != 0) then
        let remaining := ceilDiv1000 (e - now)
        if 0 < remaining then remaining else 0
      else frozen
    | none => frozen

/-- Initializer of `endTimeRef`: keeps the stored deadline only when the
session was active with a truthy deadline whose remaining time is still
positive. -/
def initEndTime (session : Option StoredSession) (now : Int) : Option Int :=
  match session with
  | none => none
  | some s =>
    match s.endTime with
    | some e =>
      if s.isActive && (e != 0) && decide (0 < ceilDiv1000 (e - now)) then some e
      else none
    | none => none

/-- The complete initial engine state assembled from the stored slot at load
time `now`. The auto-reset timeout ref starts out `null`. -/
def initState (cfg : Config) (raw : RawStored) (now : Int) : EngineState :=
  let session := getStoredSession raw
  { mode := initMode session
    isActive := initIsActive session now
    timeLeft := initTimeLeft cfg (initMode session) session now
    endTime := initEndTime session now
    autoResetPending := false }

/-! ### Effects emitted by the engine -/

/-- Haptic feedback kinds accepted by `triggerHaptic`. -/
inductive HapticKind where
  | soft
  | medium
  | heavy
  | success
  | alarm
  deriving DecidableEq

/-- Observable side effects of an engine operation, in program order:
`persist` is a `persistSession` call (the record written), `startTicker` and
`stopTicker` are the `START`/`STOP` messages posted to the worker by the
`isActive` sync effect, and the rest model the collaborator calls
(`triggerHaptic`, `initAudio`, `toggleSilentAudio`, `playTimerCompleteSound`,
`sendNotification`, `requestNotificationPermission`) and the scheduling or
cancellation of the auto-reset timeout. -/
inductive Effect where
  | persist (record : StoredSession)
  | startTicker (endTime : Int)
  | stopTicker
  | haptic (kind : HapticKind)
  | prepAudio
  | silentAudio (enabled : Bool)
  | playSound
  | notify (title body : String)
  | requestNotifPermission
  | scheduleAutoReset (delayMs : Int)
  | cancelAutoReset
  deriving DecidableEq

/-- The worker command chosen by the `isActive` sync `useEffect`:
`if (isActive && endTimeRef.current) START(endTime) else STOP` (note the
JavaScript truthiness test on the deadline). -/
def syncTickerCmd (s : EngineState) : Effect :=
  match s.endTime with
  | some e => if s.isActive && (e != 0) then .startTicker e else .stopTicker
  | none => .stopTicker

/-- Effects of the `useEffect` with dependency `[isActive]`: it runs exactly
when `isActive` changed across the update. -/
def tickerSyncEffs (old new : EngineState) : List Effect :=
  if new.isActive = old.isActive then [] else [syncTickerCmd new]

/-- Effect list of `clearAutoReset()`: a `clearTimeout` call happens only
when a timeout is pending. -/
def clearAutoResetEffs (s : EngineState) : List Effect :=
  if s.autoResetPending then [.cancelAutoReset] else []

/-! ### Engine operations (`usePomodoro` callbacks) -/

/-- The `toggleTimer` callback. Three branches: `timeLeft === 0` restarts the
current mode at full duration; otherwise not active starts from the current
`timeLeft`; otherwise pauses. All branches first run `clearAutoReset()`; the
worker `START`/`STOP` is delivered by the `isActive` sync effect afterwards. -/
def toggleTimer (cfg : Config) (now : Int) (s : EngineState) : EngineState × List Effect :=
  if s.timeLeft = 0 then
    let duration := (cfg s.mode).duration
    let endT := now + duration * 1000
    let s' : EngineState :=
      { mode := s.mode, isActive := true, timeLeft := duration,
        endTime := some endT, autoResetPending := false }
    (s', clearAutoResetEffs s ++
      [.haptic .medium, .prepAudio, .silentAudio true, .requestNotifPermission,
       .persist ⟨some s.mode, true, some endT, some duration⟩] ++ tickerSyncEffs s s')
  else if s.isActive = false then
    let endT := now + s.timeLeft * 1000
    let s' : EngineState :=
      { mode := s.mode, isActive := true, timeLeft := s.timeLeft,
        endTime := some endT, autoResetPending := false }
    (s', clearAutoResetEffs s ++
      [.haptic .medium, .prepAudio, .silentAudio true, .requestNotifPermission,
       .persist ⟨some s.mode, true, some endT, some s.timeLeft⟩] ++ tickerSyncEffs s s')
  else
    let s' : EngineState :=
      { mode := s.mode, isActive := false, timeLeft := s.timeLeft,
        endTime := none, autoResetPending := false }
    (s', clearAutoResetEffs s ++
      [.silentAudio false, .haptic .soft,
       .persist ⟨some s.mode, false, none, some s.timeLeft⟩] ++ tickerSyncEffs s s')

/-- The `resetTimer` callback: cancel auto-reset, stop, restore the current
mode's full duration, persist. -/
def resetTimer (cfg : Config) (s : EngineState) : EngineState × List Effect :=
  let duration := (cfg s.mode).duration
  let s' : EngineState :=
    { mode := s.mode, isActive := false, timeLeft := duration,
      endTime := none, autoResetPending := false }
  (s', clearAutoResetEffs s ++
    [.silentAudio false, .haptic .medium,
     .persist ⟨some s.mode, false, none, some duration⟩] ++ tickerSyncEffs s s')

/-- The `switchMode` callback: cancel auto-reset, stop, switch to the new
mode at its full duration, persist. -/
def switchMode (cfg : Config) (newMode : TimerMode) (s : EngineState) :
    EngineState × List Effect :=
  let newDuration := (cfg newMode).duration
  let s' : EngineState :=
    { mode := newMode, isActive := false, timeLeft := newDuration,
      endTime := none, autoResetPending := false }
  (s', clearAutoResetEffs s ++
    [.silentAudio false, .haptic .soft,
     .persist ⟨some newMode, false, none, some newDuration⟩] ++ tickerSyncEffs s s')

/-- The `handleTimerComplete` callback, invoked on a worker `COMPLETE`:
zero the clock, stop, clear the deadline, stop the silent audio, alarm
haptic, completion sound, notify only when `document.visibilityState` is
`'hidden'`, persist the zero/not-running record, and schedule the 3000 ms
auto-reset timeout. -/
def handleTimerComplete (cfg : Config) (visible : Bool) (s : EngineState) :
    EngineState × List Effect :=
  let s' : EngineState :=
    { mode := s.mode, isActive := false, timeLeft := 0,
      endTime := none, autoResetPending := true }
  (s', [.silentAudio false, .haptic .alarm, .playSound] ++
    (if visible then [] else
      [.notify ("Timer Complete") ((cfg s.mode).label ++ " session finished.")]) ++
    [.persist ⟨some s.mode, false, none, some 0⟩, .scheduleAutoReset 3000] ++
    tickerSyncEffs s s')

/-- Body of the auto-reset timeout callback: stay on the current mode, reset
the clock to the full duration, persist. -/
def autoResetBody (cfg : Config) (s : EngineState) : EngineState × List Effect :=
  let duration := (cfg s.mode).duration
  ({ s with timeLeft := duration, autoResetPending := false },
   [.persist ⟨some s.mode, false, none, some duration⟩])

/-- The worker `onmessage` handler's `TICK` case:
`setTimeLeft(workerTimeLeft)`, unconditionally. -/
def onWorkerTick (s : EngineState) (workerTimeLeft : Int) : EngineState × List Effect :=
  ({ s with timeLeft := workerTimeLeft }, [])

/-- Events processed serially by the hook's execution context: the public
operations, delivered worker messages, the firing of the (uncancelled)
auto-reset timeout, and a run of the config-change reconciliation effect
with the previously remembered `lastConfigRef` contents. -/
inductive EngineEvent where
  | toggle (now : Int)
  | reset
  | switch (m : TimerMode)
  | tickMsg (v : Int)
  | completeMsg (visible : Bool)
  | autoResetFire
  | configChange (lastMode : TimerMode) (lastDuration : Int)
  deriving DecidableEq

/-- Whether an engine event is a delivered worker `COMPLETE`. -/
def EngineEvent.isCompleteMsg : EngineEvent → Bool
  | .completeMsg _ => true
  | _ => false

/-- The config-change reconciliation `useEffect` (lines 284-309): when the
current mode's configured duration differs from the remembered one and the
timer is not running, snap `timeLeft` to the new duration and persist exactly
when the session was at the previous full duration
(`Math.abs(timeLeft - last.duration) < 1`) or finished (`timeLeft === 0`). -/
def configChangeStep (cfg : Config) (lastMode : TimerMode) (lastDuration : Int)
    (s : EngineState) : EngineState × List Effect :=
  let currentDuration := (cfg s.mode).duration
  if s.mode = lastMode ∧ currentDuration ≠ lastDuration then
    if s.isActive = false then
      let wasAtFullDuration := (s.timeLeft - lastDuration).natAbs < 1
      let wasFinished := s.timeLeft = 0
      if wasAtFullDuration ∨ wasFinished then
        ({ s with timeLeft := currentDuration },
         [.persist ⟨some s.mode, false, none, some currentDuration⟩])
      else (s, [])
    else (s, [])
  else (s, [])

/-- One step of the engine's serial event loop. An `autoResetFire` event is
the timeout callback coming due: it only runs when the timeout is still
pending — `clearTimeout` (any state-changing operation) prevents a cancelled
callback from ever running. -/
def engineStep (cfg : Config) (s : EngineState) : EngineEvent → EngineState × List Effect
  | .toggle now => toggleTimer cfg now s
  | .reset => resetTimer cfg s
  | .switch m => switchMode cfg m s
  | .tickMsg v => onWorkerTick s v
  | .completeMsg visible => handleTimerComplete cfg visible s
  | .autoResetFire => if s.autoResetPending then autoResetBody cfg s else (s, [])
  | .configChange lastMode lastDuration => configChangeStep cfg lastMode lastDuration s

/-- Run the engine over a sequence of events, concatenating emitted
effects. -/
def engineRun (cfg : Config) (s : EngineState) : List EngineEvent → EngineState × List Effect
  | [] => (s, [])
  | e :: es =>
    let p := engineStep cfg s e
    let q := engineRun cfg p.1 es
    (q.1, p.2 ++ q.2)

/-! ### The persistence write path (`persistSession` / `localStorage.setItem`) -/

/-- Browser `localStorage`, reduced to the single session key: whether the
storage accepts writes (unavailable storage or an exceeded quota makes
`setItem` throw) and the currently stored string. -/
structure BrowserStorage where
  available : Bool
  stored : Option String
  deriving DecidableEq

/-- Spelling of a mode used by the serialization model. -/
def TimerMode.key : TimerMode → String
  | .focus => "FOCUS"
  | .shortBreak => "SHORT_BREAK"
  | .longBreak => "LONG_BREAK"
  | .demo => "DEMO"

/-- Model of `JSON.stringify` on a `StoredSession` together with the
`timestamp: Date.now()` field added by `persistSession`. -/
def encodeSession (r : StoredSession) (timestamp : Int) : String :=
  "mode=" ++ (match r.mode with | some m => m.key | none => "") ++
  ";isActive=" ++ toString r.isActive ++
  ";endTime=" ++ (match r.endTime with | some e => toString e | none => "null") ++
  ";timeLeft=" ++ (match r.timeLeft with | some t => toString t | none => "null") ++
  ";timestamp=" ++ toString timestamp

/-- Model of `localStorage.setItem`: stores the value, or throws
(`Except.error`) when the storage does not accept writes. -/
def localStorageSetItem (st : BrowserStorage) (value : String) :
    Except Unit BrowserStorage :=
  if st.available then .ok { st with stored := some value } else .error ()

/-- The hook's `persistSession`: builds the record with the current timestamp
and calls `localStorage.setItem` directly — there is no `try`/`catch` around
the write, so a storage failure propagates to the caller. -/
def persistSessionStore (st : BrowserStorage) (r : StoredSession) (timestamp : Int) :
    Except Unit BrowserStorage :=
  localStorageSetItem st (encodeSession r timestamp)

/-- Threads the storage through the `persist` effects of an effect list; a
throwing write aborts the remaining effects, as an uncaught exception
would. -/
def runPersistEffects (st : BrowserStorage) (timestamp : Int) :
    List Effect → Except Unit BrowserStorage
  | [] => .ok st
  | .persist r :: rest =>
    match persistSessionStore st r timestamp with
    | .ok st' => runPersistEffects st' timestamp rest
    | .error e => .error e
  | _ :: rest => runPersistEffects st timestamp rest

/-- A `toggleTimer` call together with its persistence writes: the new
in-memory state is computed from the old state alone; the storage outcome
(including a throwing save) cannot alter it. -/
def toggleWithStorage (cfg : Config) (now : Int) (s : EngineState)
    (st : BrowserStorage) : EngineState × Except Unit BrowserStorage :=
  let r := toggleTimer cfg now s
  (r.1, runPersistEffects st now r.2)

/-! ### Settings PIN gate (`SettingsView.tsx`, `handlePinSubmit`) -/

/-- Local state of the settings view relevant to the PIN gate, plus whether
the 500 ms clear-after-error timeout is pending. -/
structure SettingsPinState where
  pinInput : String
  showPinInput : Bool
  isError : Bool
  errorShake : Nat
  isDemoEnabled : Bool
  clearScheduled : Bool
  deriving DecidableEq

/-- The `handlePinSubmit` handler: record the input, clear a shown error,
and on a 4-character input either unlock demo mode (input `"7890"`) or mark
the error and schedule the 500 ms input clear. -/
def handlePinSubmit (st : SettingsPinState) (pin : String) : SettingsPinState :=
  let st1 := { st with pinInput := pin }
  let st2 := if st1.isError then { st1 with isError := false } else st1
  if pin.length = 4 then
    if pin = "7890" then
      { st2 with isDemoEnabled := true, showPinInput := false, pinInput := "" }
    else
      { st2 with errorShake := st2.errorShake + 1, isError := true, clearScheduled := true }
  else st2

/-- Body of the 500 ms timeout scheduled after a wrong 4-character PIN:
clears the input and the error flag. -/
def pinClearFire (st : SettingsPinState) : SettingsPinState :=
  if st.clearScheduled then
    { st with pinInput := "", isError := false, clearScheduled := false }
  else st

/-! ### Concrete data for witnesses and counterexamples -/

/-- A concrete configuration matching the defaults of `App.tsx`
(25/5/15 minutes and a 50 second demo). -/
def sampleConfig : Config := fun m =>
  match m with
  | .focus => ⟨1500, "Focus"⟩
  | .shortBreak => ⟨300, "Short Break"⟩
  | .longBreak => ⟨900, "Long Break"⟩
  | .demo => ⟨50, "Demo"⟩

/-- Concrete settings state with the PIN panel open and demo mode off. -/
def pinPanelState : SettingsPinState := ⟨"", true, false, 0, false, false⟩

/-- A wrong 4-character PIN. -/
def wrongPin : String := "1234"

/-! ### Claim C1 -/

/-- Claim C1 is false as stated: `remainingSeconds` is not clamped into
`[0, ModeConfig(mode).durationSeconds]`. Restoring a stored running session
whose deadline lies 10000 seconds in the future while the focus duration is
1500 yields `timeLeft = 10000 > 1500`. -/
theorem C1_counterexample :
    (initState sampleConfig
        (RawStored.valid ⟨some TimerMode.focus, true, some 10000000, some 1500⟩)
        0).mode = TimerMode.focus ∧
    (sampleConfig TimerMode.focus).duration = 1500 ∧
    (initState sampleConfig
        (RawStored.valid ⟨some TimerMode.focus, true, some 10000000, some 1500⟩)
        0).timeLeft = 10000 ∧
    ¬((initState sampleConfig
        (RawStored.valid ⟨some TimerMode.focus, true, some 10000000, some 1500⟩)
        0).timeLeft ≤ (sampleConfig TimerMode.focus).duration) := by
  decide

/-- Claim C1, amended: the value computed from a running deadline is clamped
below at 0 — a restore yields `max 0 (ceil((deadline − now)/1000))` and the
worker only ever ticks values `≥ 1` — but no clamp against the mode's
configured duration is applied, a delivered tick value being stored as is;
`remainingSeconds` can exceed `ModeConfig(mode).durationSeconds` when the
clock reads high or the stored deadline lies far in the future. -/
theorem C1_theorem :
    (∀ (cfg : Config) (mo : Option TimerMode) (e : Int) (tl : Option Int) (now : Int),
      e ≠ 0 →
      (initState cfg (RawStored.valid ⟨mo, true, some e, tl⟩) now).timeLeft
        = max 0 (ceilDiv1000 (e - now))) ∧
    (∀ (s : WorkerState) (now v : Int),
      WorkerOut.tick v ∈ (workerStep s (WorkerEvent.poll now)).2 → 1 ≤ v) ∧
    (∀ (cfg : Config) (s : EngineState) (v : Int),
      (engineStep cfg s (EngineEvent.tickMsg v)).1.timeLeft = v) := by
  refine ⟨?_, ?_, ?_⟩
  · intro cfg mo e tl now he
    simp only [initState, getStoredSession, initTimeLeft, initMode, bne_iff_ne, ne_eq,
      he, not_false_eq_true, Bool.true_and, if_true]
    rcases lt_or_le 0 (ceilDiv1000 (e - now)) with h | h
    · simp [h, max_eq_right h.le]
    · simp [not_lt.mpr h, max_eq_left h]
  · intro s now v hmem
    rcases s with ⟨interval⟩
    cases interval with
    | none => simp [workerStep] at hmem
    | some endTime =>
      simp only [workerStep] at hmem
      split at hmem
      · simp at hmem
      · rename_i h
        simp only [List.mem_singleton, WorkerOut.tick.injEq] at hmem
        omega
  · intro cfg s v
    simp [engineStep, onWorkerTick]

/-- Witness for the amended C1 at a concrete input: a stored running session
with deadline 2000 ms restored at time 0 yields
`max 0 (ceil(2000/1000)) = 2` seconds. -/
theorem C1_witness :
    (2000 : Int) ≠ 0 ∧
    (initState sampleConfig
        (RawStored.valid ⟨some TimerMode.focus, true, some 2000, some 10⟩)
        0).timeLeft = max 0 (ceilDiv1000 (2000 - 0)) :=
  ⟨by decide,
   C1_theorem.1 sampleConfig (some TimerMode.focus) 2000 (some 10) 0 (by decide)⟩

/-! ### Claim C2 -/

/-- Claim C2 is false as stated: `persistSession` calls
`localStorage.setItem` with no `try`/`catch`, so with storage that rejects
writes (unavailable or quota exceeded) the save throws to its caller instead
of being caught and ignored. -/
theorem C2_counterexample :
    persistSessionStore ⟨false, none⟩ ⟨some TimerMode.focus, true, some 1000, some 25⟩ 0
      = Except.error () := rfl

/-- Claim C2, amended: `persistSession` propagates storage failures to its
caller — it returns an error exactly when `setItem` throws, and succeeds by
overwriting the slot otherwise; the in-memory engine state produced by an
operation is computed independently of the storage outcome, so a failed save
leaves it unchanged. -/
theorem C2_theorem :
    (∀ (r : StoredSession) (ts : Int),
      persistSessionStore ⟨false, none⟩ r ts = Except.error ()) ∧
    (∀ (st : BrowserStorage) (r : StoredSession) (ts : Int), st.available = true →
      persistSessionStore st r ts
        = Except.ok { st with stored := some (encodeSession r ts) }) ∧
    (∀ (cfg : Config) (now : Int) (s : EngineState) (st : BrowserStorage),
      (toggleWithStorage cfg now s st).1 = (toggleTimer cfg now s).1) := by
  refine ⟨fun r ts => rfl, ?_, fun cfg now s st => rfl⟩
  intro st r ts h
  simp [persistSessionStore, localStorageSetItem, h]

/-- Witness for the amended C2: a concrete successful save overwrites the
stored string. -/
theorem C2_witness :
    (⟨true, none⟩ : BrowserStorage).available = true ∧
    persistSessionStore ⟨true, none⟩ ⟨some TimerMode.focus, false, none, some 0⟩ 5
      = Except.ok ⟨true, some (encodeSession ⟨some TimerMode.focus, false, none, some 0⟩ 5)⟩ :=
  ⟨rfl, C2_theorem.2.1 ⟨true, none⟩ ⟨some TimerMode.focus, false, none, some 0⟩ 5 rfl⟩

/-! ### Claim C3 -/

/-- Claim C3 is false as stated: a worker `TICK` delivered while the engine
is not running is not ignored — the handler sets `timeLeft`
unconditionally, so a stale tick arriving after a stop changes
`remainingSeconds` (here from 5 to 3). -/
theorem C3_counterexample :
    (⟨TimerMode.focus, false, 5, none, false⟩ : EngineState).isActive = false ∧
    (engineStep sampleConfig ⟨TimerMode.focus, false, 5, none, false⟩
        (EngineEvent.tickMsg 3)).1 ≠ ⟨TimerMode.focus, false, 5, none, false⟩ ∧
    (engineStep sampleConfig ⟨TimerMode.focus, false, 5, none, false⟩
        (EngineEvent.tickMsg 3)).1.timeLeft = 3 := by
  decide

/-- Claim C3, amended: the `onmessage` handler applies a delivered tick
unconditionally — whether or not the engine is running, the delivered value
replaces `timeLeft` and nothing else changes; in particular a tick carrying
the current value is a no-op on the state. -/
theorem C3_theorem :
    (∀ (cfg : Config) (s : EngineState) (v : Int),
      engineStep cfg s (EngineEvent.tickMsg v) = ({ s with timeLeft := v }, [])) ∧
    (∀ (cfg : Config) (s : EngineState),
      engineStep cfg s (EngineEvent.tickMsg s.timeLeft) = (s, [])) :=
  ⟨fun _ _ _ => rfl, fun _ _ => rfl⟩

/-! ### Claim C4 -/

/-- Helper: a worker whose interval is cleared emits nothing and stays
cleared for as long as no `START` message arrives. -/
theorem workerRun_halted (evs : List WorkerEvent)
    (h : ∀ e ∈ evs, e.isStart = false) :
    workerRun ⟨none⟩ evs = (⟨none⟩, []) := by
  induction evs with
  | nil => rfl
  | cons e es ih =>
    have he := h e (List.mem_cons_self e es)
    have hes : ∀ e' ∈ es, e'.isStart = false := fun e' h' =>
      h e' (List.mem_cons_of_mem e h')
    cases e with
    | msg m =>
      cases m with
      | start d => simp [WorkerEvent.isStart] at he
      | stop => simp [workerRun, workerStep, ih hes]
    | poll now => simp [workerRun, workerStep, ih hes]

/-- Helper: once started against a deadline, polling emits ticks until the
first poll at or past the deadline, at which point the worker emits a single
`COMPLETE` as the last event and clears its interval. -/
theorem workerRun_polls_complete (endTime : Int) (ts : List Int)
    (h : ∃ t ∈ ts, endTime ≤ t) :
    ∃ ticks : List Int,
      workerRun ⟨some endTime⟩ (ts.map WorkerEvent.poll)
        = (⟨none⟩, ticks.map WorkerOut.tick ++ [WorkerOut.complete]) := by
  induction ts with
  | nil => simp at h
  | cons t ts ih =>
    by_cases hle : endTime ≤ t
    · refine ⟨[], ?_⟩
      have hrem : ceilDiv1000 (endTime - t) ≤ 0 := by unfold ceilDiv1000; omega
      have hhalt : workerRun ⟨none⟩ (ts.map WorkerEvent.poll) = (⟨none⟩, []) := by
        refine workerRun_halted _ ?_
        intro e he
        simp only [List.mem_map] at he
        obtain ⟨x, _, hx⟩ := he
        subst hx
        rfl
      simp [workerRun, workerStep, hrem, hhalt]
    · have h' : ∃ x ∈ ts, endTime ≤ x := by
        obtain ⟨x, hx, hlex⟩ := h
        rcases List.mem_cons.mp hx with rfl | hx'
        · exact absurd hlex hle
        · exact ⟨x, hx', hlex⟩
      obtain ⟨ticks, hticks⟩ := ih h'
      refine ⟨ceilDiv1000 (endTime - t) :: ticks, ?_⟩
      have hrem : ¬(ceilDiv1000 (endTime - t) ≤ 0) := by unfold ceilDiv1000; omega
      simp [workerRun, workerStep, hrem, hticks]

/-- Claim C4: once started against a deadline, a poll sequence that reaches
the deadline makes the worker emit some ticks followed by exactly one
`COMPLETE`, which is its last event, and leaves it halted; a `START` while a
loop is active atomically replaces it (interval overwritten, no emission);
`STOP` clears the interval from any state (hence idempotently); and a halted
worker delivers nothing until the next `START`. -/
theorem C4_theorem :
    (∀ (endTime : Int) (ts : List Int), (∃ t ∈ ts, endTime ≤ t) →
      ∃ ticks : List Int,
        workerRun ⟨some endTime⟩ (ts.map WorkerEvent.poll)
          = (⟨none⟩, ticks.map WorkerOut.tick ++ [WorkerOut.complete])) ∧
    (∀ (s : WorkerState) (e : Int),
      workerStep s (WorkerEvent.msg (WorkerMsgIn.start e)) = (⟨some e⟩, [])) ∧
    (∀ (s : WorkerState),
      workerStep s (WorkerEvent.msg WorkerMsgIn.stop) = (⟨none⟩, [])) ∧
    (∀ (evs : List WorkerEvent), (∀ e ∈ evs, e.isStart = false) →
      workerRun ⟨none⟩ evs = (⟨none⟩, [])) :=
  ⟨workerRun_polls_complete, fun _ _ => rfl, fun _ => rfl, workerRun_halted⟩

/-- Witness for C4: starting at deadline 2000 ms and polling at 1000 ms and
2500 ms yields one tick and then the single `COMPLETE`. -/
theorem C4_witness :
    (∃ t ∈ [(1000 : Int), 2500], (2000 : Int) ≤ t) ∧
    (∃ ticks : List Int,
      workerRun ⟨some 2000⟩ ([(1000 : Int), 2500].map WorkerEvent.poll)
        = (⟨none⟩, ticks.map WorkerOut.tick ++ [WorkerOut.complete])) :=
  ⟨⟨2500, by decide, by decide⟩,
   C4_theorem.1 2000 [1000, 2500] ⟨2500, by decide, by decide⟩⟩

/-! ### Claim C5 -/

/-- Claim C5: initial-state reconciliation. An absent or malformed stored
slot yields Focus at the full configured duration, not running, with no
deadline. A record stored as running with a (truthy) deadline restores
`timeLeft = max 0 (ceil((deadline − now)/1000))` and is running exactly when
that recomputed remainder is positive; when the remainder is not positive the
initial state is Finished — not running, `timeLeft = 0`, deadline cleared. A
record stored as not running restores the frozen `timeLeft`, not running,
with no deadline. -/
theorem C5_theorem :
    (∀ (cfg : Config) (raw : RawStored) (now : Int), getStoredSession raw = none →
      initState cfg raw now
        = ⟨TimerMode.focus, false, (cfg TimerMode.focus).duration, none, false⟩) ∧
    (∀ (cfg : Config) (mo : Option TimerMode) (e : Int) (tl : Option Int) (now : Int),
      e ≠ 0 →
      (initState cfg (RawStored.valid ⟨mo, true, some e, tl⟩) now).isActive
          = decide (0 < ceilDiv1000 (e - now)) ∧
      (initState cfg (RawStored.valid ⟨mo, true, some e, tl⟩) now).timeLeft
          = max 0 (ceilDiv1000 (e - now)) ∧
      (initState cfg (RawStored.valid ⟨mo, true, some e, tl⟩) now).endTime
          = (if 0 < ceilDiv1000 (e - now) then some e else none) ∧
      (ceilDiv1000 (e - now) ≤ 0 →
        initState cfg (RawStored.valid ⟨mo, true, some e, tl⟩) now
          = ⟨initMode (some ⟨mo, true, some e, tl⟩), false, 0, none, false⟩)) ∧
    (∀ (cfg : Config) (mo : Option TimerMode) (et : Option Int) (t : Int) (now : Int),
      (initState cfg (RawStored.valid ⟨mo, false, et, some t⟩) now).isActive = false ∧
      (initState cfg (RawStored.valid ⟨mo, false, et, some t⟩) now).timeLeft = t ∧
      (initState cfg (RawStored.valid ⟨mo, false, et, some t⟩) now).endTime = none) := by
  refine ⟨?_, ?_, ?_⟩
  · intro cfg raw now h
    simp [initState, h, initMode, initIsActive, initTimeLeft, initEndTime]
  · intro cfg mo e tl now he
    have hbne : (e != 0) = true := by simp [bne_iff_ne, he]
    refine ⟨?_, ?_, ?_, ?_⟩
    · simp [initState, getStoredSession, initIsActive, hbne]
    · simp only [initState, getStoredSession, initTimeLeft, hbne, Bool.true_and,
        Bool.and_self, if_true]
      rcases lt_or_le 0 (ceilDiv1000 (e - now)) with h | h
      · simp [h, max_eq_right h.le]
      · simp [not_lt.mpr h, max_eq_left h]
    · simp only [initState, getStoredSession, initEndTime, hbne, Bool.true_and,
        Bool.and_self]
      rcases lt_or_le 0 (ceilDiv1000 (e - now)) with h | h
      · simp [h]
      · simp [not_lt.mpr h]
    · intro hz
      have hnpos : ¬(0 < ceilDiv1000 (e - now)) := not_lt.mpr hz
      simp [initState, getStoredSession, initMode, initIsActive, initTimeLeft,
        initEndTime, hbne, hnpos]
  · intro cfg mo et t now
    cases et with
    | none =>
      refine ⟨?_, ?_, ?_⟩ <;>
        simp [initState, getStoredSession, initIsActive, initTimeLeft, initEndTime]
    | some e =>
      refine ⟨?_, ?_, ?_⟩ <;>
        simp [initState, getStoredSession, initIsActive, initTimeLeft, initEndTime]

/-- Witness for C5: loading with nothing stored at time 7 yields the idle
Focus state at its full configured duration. -/
theorem C5_witness :
    getStoredSession RawStored.absent = none ∧
    initState sampleConfig RawStored.absent 7
      = ⟨TimerMode.focus, false, (sampleConfig TimerMode.focus).duration, none, false⟩ :=
  ⟨rfl, C5_theorem.1 sampleConfig RawStored.absent 7 rfl⟩

/-! ### Claim C6 -/

/-- Claim C6: `toggle()` is a three-way case split (stated for any positive
clock reading and non-negative remaining time). With `timeLeft = 0` it
restarts the current mode: full duration, running, deadline
`now + duration·1000`, and the running record persisted. Otherwise, when not
running it starts: deadline `now + timeLeft·1000`, the running record
persisted, and the ticker started. Otherwise it pauses: not running, deadline
cleared, `timeLeft` kept, the paused record persisted, and the ticker
stopped. -/
theorem C6_theorem :
    ∀ (cfg : Config) (now : Int) (s : EngineState),
      0 < now → 0 ≤ s.timeLeft →
      (s.timeLeft = 0 →
        (toggleTimer cfg now s).1
          = ⟨s.mode, true, (cfg s.mode).duration,
             some (now + (cfg s.mode).duration * 1000), false⟩ ∧
        Effect.persist ⟨some s.mode, true, some (now + (cfg s.mode).duration * 1000),
            some ((cfg s.mode).duration)⟩ ∈ (toggleTimer cfg now s).2) ∧
      (s.timeLeft ≠ 0 → s.isActive = false →
        (toggleTimer cfg now s).1
          = ⟨s.mode, true, s.timeLeft, some (now + s.timeLeft * 1000), false⟩ ∧
        Effect.persist ⟨some s.mode, true, some (now + s.timeLeft * 1000), some s.timeLeft⟩
          ∈ (toggleTimer cfg now s).2 ∧
        Effect.startTicker (now + s.timeLeft * 1000) ∈ (toggleTimer cfg now s).2) ∧
      (s.timeLeft ≠ 0 → s.isActive = true →
        (toggleTimer cfg now s).1 = ⟨s.mode, false, s.timeLeft, none, false⟩ ∧
        Effect.persist ⟨some s.mode, false, none, some s.timeLeft⟩
          ∈ (toggleTimer cfg now s).2 ∧
        Effect.stopTicker ∈ (toggleTimer cfg now s).2) := by
  intro cfg now s hnow htl
  refine ⟨?_, ?_, ?_⟩
  · intro h0
    constructor
    · simp [toggleTimer, h0]
    · simp [toggleTimer, h0, clearAutoResetEffs, tickerSyncEffs]
  · intro h0 hact
    have hendT : (now + s.timeLeft * 1000 != 0) = true := by
      simp only [bne_iff_ne, ne_eq]
      omega
    refine ⟨?_, ?_, ?_⟩
    · simp [toggleTimer, h0, hact]
    · simp [toggleTimer, h0, hact, clearAutoResetEffs, tickerSyncEffs]
    · simp [toggleTimer, h0, hact, clearAutoResetEffs, tickerSyncEffs,
        syncTickerCmd, hendT]
  · intro h0 hact
    refine ⟨?_, ?_, ?_⟩
    · simp [toggleTimer, h0, hact]
    · simp [toggleTimer, h0, hact, clearAutoResetEffs, tickerSyncEffs]
    · simp [toggleTimer, h0, hact, clearAutoResetEffs, tickerSyncEffs, syncTickerCmd]

/-- Witness for C6 in the pause branch: toggling a running Focus session
with 10 s left pauses it, persists the paused record, and stops the
ticker. -/
theorem C6_witness :
    (toggleTimer sampleConfig 1 ⟨TimerMode.focus, true, 10, some 11000, false⟩).1
        = ⟨TimerMode.focus, false, 10, none, false⟩ ∧
    Effect.persist ⟨some TimerMode.focus, false, none, some 10⟩
        ∈ (toggleTimer sampleConfig 1 ⟨TimerMode.focus, true, 10, some 11000, false⟩).2 ∧
    Effect.stopTicker
        ∈ (toggleTimer sampleConfig 1 ⟨TimerMode.focus, true, 10, some 11000, false⟩).2 :=
  (C6_theorem sampleConfig 1 ⟨TimerMode.focus, true, 10, some 11000, false⟩
      (by decide) (by decide)).2.2 (by decide) rfl

/-! ### Claim C7 -/

/-- Helper: the `isActive` sync effect only ever posts worker commands,
never a notification. -/
theorem notify_not_mem_tickerSync (a b : String) (old new : EngineState) :
    Effect.notify a b ∉ tickerSyncEffs old new := by
  unfold tickerSyncEffs
  split
  · simp
  · simp only [List.mem_singleton]
    unfold syncTickerCmd
    split
    · split <;> simp
    · simp

/-- Claim C7: on a `COMPLETE`, the engine zeroes `timeLeft`, stops running,
clears the deadline, persists the zero/not-running record, notifies exactly
when the document is not visible, stops the ticker when it had been running,
and schedules the 3000 ms auto-reset; if that auto-reset then fires
uncancelled, it restores the current mode's full duration, still not
running, and persists it. -/
theorem C7_theorem :
    ∀ (cfg : Config) (visible : Bool) (s : EngineState),
      (handleTimerComplete cfg visible s).1 = ⟨s.mode, false, 0, none, true⟩ ∧
      Effect.persist ⟨some s.mode, false, none, some 0⟩
          ∈ (handleTimerComplete cfg visible s).2 ∧
      (Effect.notify ("Timer Complete") ((cfg s.mode).label ++ " session finished.")
          ∈ (handleTimerComplete cfg visible s).2 ↔ visible = false) ∧
      Effect.scheduleAutoReset 3000 ∈ (handleTimerComplete cfg visible s).2 ∧
      (s.isActive = true → Effect.stopTicker ∈ (handleTimerComplete cfg visible s).2) ∧
      engineStep cfg (handleTimerComplete cfg visible s).1 EngineEvent.autoResetFire
        = (⟨s.mode, false, (cfg s.mode).duration, none, false⟩,
           [Effect.persist ⟨some s.mode, false, none, some ((cfg s.mode).duration)⟩]) := by
  intro cfg visible s
  refine ⟨rfl, ?_, ?_, ?_, ?_, ?_⟩
  · simp [handleTimerComplete]
  · cases visible <;> simp [handleTimerComplete, notify_not_mem_tickerSync]
  · simp [handleTimerComplete]
  · intro hact
    simp [handleTimerComplete, tickerSyncEffs, hact, syncTickerCmd]
  · simp [engineStep, handleTimerComplete, autoResetBody]

/-- Witness for C7: completing a hidden running Focus session emits the stop
command to the ticker. -/
theorem C7_witness :
    (⟨TimerMode.focus, true, 1, some 1000, false⟩ : EngineState).isActive = true ∧
    Effect.stopTicker ∈ (handleTimerComplete sampleConfig false
        ⟨TimerMode.focus, true, 1, some 1000, false⟩).2 :=
  ⟨rfl, (C7_theorem sampleConfig false
      ⟨TimerMode.focus, true, 1, some 1000, false⟩).2.2.2.2.1 rfl⟩

/-! ### Claim C8 -/

/-- Helper: the config-change reconciliation never touches the auto-reset
timeout. -/
theorem configChangeStep_pending (cfg : Config) (lastMode : TimerMode)
    (lastDuration : Int) (s : EngineState) :
    (configChangeStep cfg lastMode lastDuration s).1.autoResetPending
      = s.autoResetPending := by
  simp only [configChangeStep]
  repeat' split
  all_goals rfl

/-- Helper: every engine event other than a delivered `COMPLETE` leaves a
cleared auto-reset timeout cleared. -/
theorem engineStep_pending_false (cfg : Config) (s : EngineState) (e : EngineEvent)
    (hs : s.autoResetPending = false) (he : e.isCompleteMsg = false) :
    (engineStep cfg s e).1.autoResetPending = false := by
  cases e with
  | toggle now =>
    simp only [engineStep]
    unfold toggleTimer
    split
    · rfl
    · split <;> rfl
  | reset => rfl
  | switch m => rfl
  | tickMsg v => simpa [engineStep, onWorkerTick] using hs
  | completeMsg visible => simp [EngineEvent.isCompleteMsg] at he
  | autoResetFire => simp [engineStep, hs]
  | configChange lastMode lastDuration =>
    simp only [engineStep]
    rw [configChangeStep_pending]
    exact hs

/-- Helper: over any event sequence containing no delivered `COMPLETE`, a
cleared auto-reset timeout stays cleared. -/
theorem engineRun_pending_false (cfg : Config) (s : EngineState)
    (evs : List EngineEvent) (hs : s.autoResetPending = false)
    (hevs : ∀ e ∈ evs, e.isCompleteMsg = false) :
    (engineRun cfg s evs).1.autoResetPending = false := by
  induction evs generalizing s with
  | nil => simpa [engineRun] using hs
  | cons e es ih =>
    have he := hevs e (List.mem_cons_self e es)
    have hes : ∀ e' ∈ es, e'.isCompleteMsg = false := fun e' h' =>
      hevs e' (List.mem_cons_of_mem e h')
    simpa [engineRun] using ih (engineStep cfg s e).1
      (engineStep_pending_false cfg s e hs he) hes

/-- Claim C8: `toggle`, `reset` and `switchMode` all clear the pending
auto-reset; once cleared, the auto-reset callback coming due is a no-op (it
never fires late), and it stays cleared across any further events that do
not include a delivered `COMPLETE`; and a `toggle` in the finished state
(`timeLeft = 0`, the state during the grace window) starts a fresh
full-duration running session of the current mode. -/
theorem C8_theorem :
    (∀ (cfg : Config) (now : Int) (s : EngineState),
      (toggleTimer cfg now s).1.autoResetPending = false) ∧
    (∀ (cfg : Config) (s : EngineState),
      (resetTimer cfg s).1.autoResetPending = false) ∧
    (∀ (cfg : Config) (m : TimerMode) (s : EngineState),
      (switchMode cfg m s).1.autoResetPending = false) ∧
    (∀ (cfg : Config) (s : EngineState), s.autoResetPending = false →
      engineStep cfg s EngineEvent.autoResetFire = (s, [])) ∧
    (∀ (cfg : Config) (s : EngineState) (evs : List EngineEvent),
      s.autoResetPending = false → (∀ e ∈ evs, e.isCompleteMsg = false) →
      (engineRun cfg s evs).1.autoResetPending = false) ∧
    (∀ (cfg : Config) (now : Int) (s : EngineState), s.timeLeft = 0 →
      (toggleTimer cfg now s).1
        = ⟨s.mode, true, (cfg s.mode).duration,
           some (now + (cfg s.mode).duration * 1000), false⟩) := by
  refine ⟨?_, fun cfg s => rfl, fun cfg m s => rfl, ?_, engineRun_pending_false, ?_⟩
  · intro cfg now s
    unfold toggleTimer
    split
    · rfl
    · split <;> rfl
  · intro cfg s hs
    simp [engineStep, hs]
  · intro cfg now s h0
    simp [toggleTimer, h0]

/-- Witness for C8: with the timeout cleared, a firing event is a no-op, and
a toggle at `timeLeft = 0` starts the fresh full-duration Focus session. -/
theorem C8_witness :
    (⟨TimerMode.focus, false, 0, none, false⟩ : EngineState).autoResetPending = false ∧
    engineStep sampleConfig ⟨TimerMode.focus, false, 0, none, false⟩
        EngineEvent.autoResetFire
      = (⟨TimerMode.focus, false, 0, none, false⟩, []) ∧
    (toggleTimer sampleConfig 1000 ⟨TimerMode.focus, false, 0, none, false⟩).1
      = ⟨TimerMode.focus, true, 1500, some (1000 + 1500 * 1000), false⟩ :=
  ⟨rfl,
   C8_theorem.2.2.2.1 sampleConfig ⟨TimerMode.focus, false, 0, none, false⟩ rfl,
   C8_theorem.2.2.2.2.2 sampleConfig 1000 ⟨TimerMode.focus, false, 0, none, false⟩ rfl⟩

/-! ### Claim C9 -/

/-- Claim C9: when the current mode's configured duration changes while the
timer is not running, `timeLeft` snaps to the new duration — and the snapped
record is persisted — exactly when the session was fresh (`timeLeft` equal
to the previous full duration) or finished (`timeLeft = 0`); any other
value, in particular one paused strictly between, is preserved with no
persistence write. -/
theorem C9_theorem :
    ∀ (cfg : Config) (lastDuration : Int) (s : EngineState),
      s.isActive = false → (cfg s.mode).duration ≠ lastDuration →
      (s.timeLeft = lastDuration ∨ s.timeLeft = 0 →
        configChangeStep cfg s.mode lastDuration s
          = ({ s with timeLeft := (cfg s.mode).duration },
             [Effect.persist ⟨some s.mode, false, none, some ((cfg s.mode).duration)⟩])) ∧
      (s.timeLeft ≠ lastDuration ∧ s.timeLeft ≠ 0 →
        configChangeStep cfg s.mode lastDuration s = (s, [])) := by
  intro cfg lastDuration s hact hdur
  constructor
  · intro hsnap
    rcases hsnap with h | h
    · have hc : s.timeLeft - lastDuration = 0 := by omega
      simp [configChangeStep, hdur, hact, hc]
    · simp [configChangeStep, hdur, hact, h]
  · intro ⟨hne, hnz⟩
    have hc1 : s.timeLeft - lastDuration ≠ 0 := by omega
    simp [configChangeStep, hdur, hact, hc1, hnz]

/-- Witness for C9: with the Focus duration changed from 1200 to the
configured 1500 while paused at the old full duration 1200, the state snaps
to 1500 and persists it. -/
theorem C9_witness :
    configChangeStep sampleConfig TimerMode.focus 1200
        ⟨TimerMode.focus, false, 1200, none, false⟩
      = (⟨TimerMode.focus, false, 1500, none, false⟩,
         [Effect.persist ⟨some TimerMode.focus, false, none, some 1500⟩]) :=
  (C9_theorem sampleConfig 1200 ⟨TimerMode.focus, false, 1200, none, false⟩
      rfl (by decide)).1 (Or.inl rfl)

/-! ### Claim C10 -/

/-- Claim C10: demo mode becomes enabled exactly when the PIN input has
length 4 and equals `"7890"`; any other 4-character input leaves demo mode
disabled, marks the error, schedules the input clear, and the clear
timeout then empties the entered PIN. -/
theorem C10_theorem :
    ∀ (st : SettingsPinState) (pin : String), st.isDemoEnabled = false →
      ((handlePinSubmit st pin).isDemoEnabled = true ↔ pin.length = 4 ∧ pin = "7890") ∧
      (pin.length = 4 → pin ≠ "7890" →
        (handlePinSubmit st pin).isDemoEnabled = false ∧
        (handlePinSubmit st pin).isError = true ∧
        (handlePinSubmit st pin).clearScheduled = true ∧
        (pinClearFire (handlePinSubmit st pin)).pinInput = "") := by
  intro st pin hdemo
  constructor
  · by_cases hlen : pin.length = 4
    · by_cases hpin : pin = "7890"
      · subst hpin
        simp [handlePinSubmit, show ("7890" : String).length = 4 from rfl]
      · by_cases herr : st.isError <;>
          simp [handlePinSubmit, hlen, hpin, hdemo, herr]
    · by_cases herr : st.isError <;>
        simp [handlePinSubmit, hlen, hdemo, herr]
  · intro hlen hpin
    by_cases herr : st.isError <;>
      simp [handlePinSubmit, pinClearFire, hlen, hpin, hdemo, herr]

/-- Witness for C10: from a closed settings state with the PIN panel open,
submitting the wrong 4-character PIN `"1234"` keeps demo mode disabled,
shows the error, and the scheduled clear empties the input. -/
theorem C10_witness :
    pinPanelState.isDemoEnabled = false ∧
    (handlePinSubmit pinPanelState wrongPin).isDemoEnabled = false ∧
    (handlePinSubmit pinPanelState wrongPin).isError = true ∧
    (handlePinSubmit pinPanelState wrongPin).clearScheduled = true ∧
    (pinClearFire (handlePinSubmit pinPanelState wrongPin)).pinInput = "" :=
  ⟨rfl, (C10_theorem pinPanelState wrongPin rfl).2 (by decide) (by decide)⟩

end ZenPomodoro
